import Mathlib

/-!
Verification development for the Morocco national-team roster scraper
(`scraper.py`).  The HTML document is shallowly embedded as a flat list of
sibling nodes (headings / tables / other elements); `BeautifulSoup` text
extraction is represented by storing the extracted text of each cell, heading
and table directly.  Python regular-expression substitutions are embedded as
fuel-based character-list scans, pandas dataframes as a header list plus rows
of values (a value is either a string cell or an optional rational, an absent
rational standing for NaN), and Python floats as rationals.  Exceptions that
the scraper's boundary handler catches are embedded with `Except`.
-/

attribute [local semireducible] Rat.add Rat.sub Rat.mul Rat.inv

/-- Python's substring test `pat in hay`. -/
def pyIn (pat hay : String) : Bool :=
  hay.toList.tails.any (fun t => pat.toList.isPrefixOf t)

/-- ASCII lower-casing of one character. -/
def lowerChar (c : Char) : Char :=
  if 'A' ≤ c && c ≤ 'Z' then Char.ofNat (c.toNat + 32) else c

/-- Python's `str.lower()` (the texts in scope are ASCII). -/
def pyLower (s : String) : String := ⟨s.toList.map lowerChar⟩

/-- Python's `str(headers)` for a list of quote-free strings:
`"['a', 'b']"`. -/
def pyListRepr (l : List String) : String :=
  "[" ++ String.intercalate ", " (l.map (fun s => "'" ++ s ++ "'")) ++ "]"

/-- Drop characters up to and including the first occurrence of `close`;
`none` when `close` does not occur. -/
def dropThrough (close : Char) : List Char → Option (List Char)
  | [] => none
  | c :: rest => if c == close then some rest else dropThrough close rest

/-- One step of `re.sub(r'\[.*?\]', '', ·)`: left-to-right scan, each `[`
with a later `]` is removed together with the (shortest) bracketed span; an
unmatched `[` is kept.  Fuel-based so that the kernel can evaluate it; fuel
is the length of the list at the top-level call. -/
def stripBracketsAux : Nat → List Char → List Char
  | 0, l => l
  | _ + 1, [] => []
  | fuel + 1, c :: rest =>
    if c == '[' then
      match dropThrough ']' rest with
      | some rest' => stripBracketsAux fuel rest'
      | none => c :: stripBracketsAux fuel rest
    else c :: stripBracketsAux fuel rest

/-- `re.sub(r'\[.*?\]', '', s)` from `scraper.py` lines 108/110. -/
def stripBrackets (s : String) : String :=
  ⟨stripBracketsAux s.toList.length s.toList⟩

/-- One step of `re.sub(r'\(age.*?\)', '', ·)`: a literal `(age` followed by
the shortest span ending in `)` is removed. -/
def stripAgeAux : Nat → List Char → List Char
  | 0, l => l
  | _ + 1, [] => []
  | fuel + 1, c :: rest =>
    if c == '(' && ['a', 'g', 'e'].isPrefixOf rest then
      match dropThrough ')' (rest.drop 3) with
      | some rest' => stripAgeAux fuel rest'
      | none => c :: stripAgeAux fuel rest
    else c :: stripAgeAux fuel rest

def isParen (c : Char) : Bool := c == '(' || c == ')'

/-- Python `str.strip()` (whitespace from both ends). -/
def pyStrip (l : List Char) : List Char :=
  ((l.dropWhile Char.isWhitespace).reverse.dropWhile Char.isWhitespace).reverse

/-- The index-3 cleanup of `scraper.py` lines 111-113: remove `(age ...)`,
remove all remaining parentheses, strip surrounding whitespace. -/
def cleanBirthDate (s : String) : String :=
  ⟨pyStrip ((stripAgeAux s.toList.length s.toList).filter (fun c => !isParen c))⟩

/-- Positional cell cleanup of `scraper.py` lines 107-113. -/
def cleanCell (i : Nat) (s : String) : String :=
  if i == 0 then stripBrackets s
  else if i == 2 then stripBrackets s
  else if i == 3 then cleanBirthDate s
  else s


/-- Numeric value of a digit list (most significant first). -/
def digitsVal (l : List Char) : Nat :=
  l.foldl (fun a c => a * 10 + (c.toNat - 48)) 0

/-- `pd.to_numeric(·, errors='coerce')` on a single cell: an optional sign,
an integer part and an optional fractional part parse to a rational, any
other string coerces to NaN (`none`). -/
def parseNumeric (s : String) : Option ℚ :=
  let l := s.toList
  let signed : Bool × List Char :=
    match l with
    | '-' :: r => (true, r)
    | '+' :: r => (false, r)
    | _ => (false, l)
  let ip := signed.2.takeWhile Char.isDigit
  let rest := signed.2.dropWhile Char.isDigit
  let val? : Option ℚ :=
    match rest with
    | [] => if ip.isEmpty then none else some (digitsVal ip)
    | '.' :: fp =>
      if fp.all Char.isDigit && (!ip.isEmpty || !fp.isEmpty) then
        some ((digitsVal ip : ℚ) + (digitsVal fp : ℚ) / (10 ^ fp.length : ℚ))
      else none
    | _ => none
  val?.map (fun v => if signed.1 then -v else v)


/-- `Series.str.extract(r'(\d{4})')` on one cell: the first window of four
consecutive digits. -/
def extract4Aux : List Char → Option (List Char)
  | [] => none
  | c :: rest =>
    if c.isDigit && (rest.take 3).length == 3 && (rest.take 3).all Char.isDigit then
      some (c :: rest.take 3)
    else extract4Aux rest

/-- `Birth_Year` of one (already cleaned) `Date_of_Birth` cell, lines
138-139: extract the first four-digit window, then coerce numerically. -/
def birthYearOfCell (s : String) : Option ℚ :=
  (extract4Aux s.toList).bind (fun l => parseNumeric ⟨l⟩)


/-- A table row: the `class` attribute values and the extracted text of its
`td`/`th` cells (in document order). -/
structure HRow where
  classes : List String
  cells : List String
deriving DecidableEq, Repr

/-- A table element: its full extracted text (`table.get_text()`), the rows
of its `tbody` when a `tbody` element is present, and all `tr` elements of
the table in document order (`table.find_all('tr')`). -/
structure HTable where
  text : String
  tbody : Option (List HRow)
  rows : List HRow
deriving DecidableEq, Repr

/-- A sibling node of the parsed document: a heading of level 2-4 carrying
its extracted text, a table, or any other element. -/
inductive Node where
  | heading (text : String)
  | table (t : HTable)
  | other
deriving DecidableEq, Repr

/-- Line 25: the heading text (stripped) contains `'player'`
case-insensitively. -/
def isPlayersHeading : Node → Bool
  | Node.heading s => pyIn "player" (pyLower s)
  | _ => false

/-- Lines 33-38: walk forward through following siblings until a table. -/
def firstTableAfter : List Node → Option HTable
  | [] => none
  | Node.table t :: _ => some t
  | _ :: rest => firstTableAfter rest

/-- Stage A (lines 22-38): find the first heading whose text contains
`'player'`, then the first table among its following siblings. -/
def stageA : List Node → Option HTable
  | [] => none
  | n :: rest => if isPlayersHeading n then firstTableAfter rest else stageA rest

/-- `soup.find_all('table')` on the embedded document. -/
def docTables : List Node → List HTable
  | [] => []
  | Node.table t :: rest => t :: docTables rest
  | _ :: rest => docTables rest

def keywordList : List String := ["gk", "df", "mf", "fw", "caps", "goals"]

def headerLabelList : List String := ["No.", "Pos.", "Player", "Caps", "Goals"]

/-- Stage B per-table test (lines 43-56): the table text contains a keyword,
and the first row exists (a missing first row raises inside the bare
`except`, skipping the table) and its cell texts' Python list-repr contains
one of the header labels. -/
def stageBMatches (t : HTable) : Bool :=
  (keywordList.any (fun kw => pyIn kw (pyLower t.text))) &&
  (match t.rows.head? with
   | none => false
   | some r => headerLabelList.any (fun lbl => pyIn lbl (pyListRepr r.cells)))

/-- Stage B (lines 41-56): first table satisfying `stageBMatches`. -/
def stageB (doc : List Node) : Option HTable :=
  (docTables doc).find? stageBMatches

/-- Lines 22-56: Stage A, then Stage B when Stage A yields nothing. -/
def locateTable (doc : List Node) : Option HTable :=
  match stageA doc with
  | some t => some t
  | none => stageB doc

/-- Header-label canonicalisation, lines 72-87. -/
def mapHeaderLabel (h : String) : String :=
  if h == "No." then "Number"
  else if h == "Pos." then "Position"
  else if h == "Player" then "Player"
  else if pyIn "Date of birth" h || pyIn "Birth" h then "Date_of_Birth"
  else if h == "Caps" then "Caps"
  else if h == "Goals" then "Goals"
  else if h == "Club" then "Club"
  else h

def defaultHeaders : List String :=
  ["Number", "Position", "Player", "Date_of_Birth", "Caps", "Goals", "Club"]

/-- Lines 62-89: map the first row's cell texts, or fall back to the fixed
default labels when the table has no row at all (a `thead` containing a
`tr` would already be found by `table.find('tr')`, so the explicit `thead`
fallback of lines 64-67 adds nothing). -/
def extractHeaders (t : HTable) : List String :=
  match t.rows.head? with
  | some r => r.cells.map mapHeaderLabel
  | none => defaultHeaders

/-- Line 97: the row carries a `sortbottom` or `mw-empty-elt` class. -/
def rowFlagged (r : HRow) : Bool :=
  r.classes.contains "sortbottom" || r.classes.contains "mw-empty-elt"

/-- Lines 117-120: pad with empty strings up to the header count, then
truncate to it. -/
def padTrunc (n : Nat) (l : List String) : List String :=
  (l ++ List.replicate (n - l.length) "").take n

/-- Lines 96-120, one row: skip flagged rows and rows with fewer than 4
cells; otherwise clean each cell by position and pad/truncate to the header
count. -/
def processRow (headers : List String) (r : HRow) : Option (List String) :=
  if rowFlagged r then none
  else if 4 ≤ r.cells.length then
    some (padTrunc headers.length (r.cells.mapIdx (fun i c => cleanCell i c)))
  else none

/-- Lines 96-120, all rows. -/
def extractRows (headers : List String) (rows : List HRow) : List (List String) :=
  rows.filterMap (processRow headers)

/-- Line 94: `tbody.find_all('tr') if tbody else table.find_all('tr')[1:]`. -/
def bodyRows (t : HTable) : List HRow :=
  match t.tbody with
  | some rs => rs
  | none => t.rows.drop 1

/-- One dataframe entry: a string cell, or a numeric cell where `none`
stands for NaN. -/
inductive Value where
  | str (s : String)
  | num (q : Option ℚ)
deriving DecidableEq, Repr

/-- The dataframe: column labels and rows of values.  Column lookup by
label is by first occurrence; row labels coincide with positions because
every operation below preserves the original document order. -/
structure DF where
  headers : List String
  rows : List (List Value)
deriving DecidableEq, Repr

/-- The value of row `r` at column index `i`. -/
def rowGet (r : List Value) (i : Nat) : Value :=
  r.getD i (Value.str "")

/-- The mask of line 129, `df['Player'].notna() & (df['Player'] != '')`:
a string cell is kept iff non-empty (strings are never NaN); a numeric cell
is NaN-masked by `notna` (and `NaN != ''` is True in pandas). -/
def notnaNonempty (v : Value) : Bool :=
  match v with
  | Value.str s => !(s == "")
  | Value.num q => q.isSome

/-- Line 129.  A missing `Player` column raises `KeyError`, which the
boundary handler of lines 153-155 later absorbs. -/
def filterPlayer (df : DF) : Except String DF :=
  match df.headers.findIdx? (· == "Player") with
  | none => Except.error "KeyError: Player"
  | some i => Except.ok ⟨df.headers, df.rows.filter (fun r => notnaNonempty (rowGet r i))⟩

/-- `pd.to_numeric(·, errors='coerce')` on one entry. -/
def numifyValue (v : Value) : Value :=
  match v with
  | Value.str s => Value.num (parseNumeric s)
  | Value.num q => Value.num q

/-- Lines 132-134, one column: coerce the column numerically when present. -/
def coerceCol (df : DF) (name : String) : DF :=
  match df.headers.findIdx? (· == name) with
  | none => df
  | some j => ⟨df.headers, df.rows.map (fun r => r.set j (numifyValue (rowGet r j)))⟩

/-- Lines 132-134: coerce `Number`, `Caps`, `Goals` in that order. -/
def coerceNumerics (df : DF) : DF :=
  coerceCol (coerceCol (coerceCol df "Number") "Caps") "Goals"

/-- `Birth_Year` of one `Date_of_Birth` entry (the column is an object
column of strings; it is never among the numerically coerced columns). -/
def birthYearOfValue (v : Value) : Option ℚ :=
  match v with
  | Value.str s => birthYearOfCell s
  | Value.num _ => none

/-- `Age` of one entry, line 142: current year minus birth year, NaN when
the birth year is NaN. -/
def ageOfValue (year : ℚ) (v : Value) : Option ℚ :=
  (birthYearOfValue v).map (fun b => year - b)

/-- Lines 137-142: when a `Date_of_Birth` column exists, append the
`Birth_Year` and `Age` columns. -/
def addBirthAge (year : ℚ) (df : DF) : DF :=
  match df.headers.findIdx? (· == "Date_of_Birth") with
  | none => df
  | some i =>
    ⟨df.headers ++ ["Birth_Year", "Age"],
     df.rows.map (fun r =>
       r ++ [Value.num (birthYearOfValue (rowGet r i)),
             Value.num (ageOfValue year (rowGet r i))])⟩

/-- The per-row lambda of lines 146-149:
`x['Goals'] / x['Caps'] if x['Caps'] > 0 else 0`.  A NaN `Caps` fails the
`> 0` comparison, giving 0; a NaN `Goals` over positive `Caps` gives NaN.
Both columns are numeric here, having been coerced on lines 132-134. -/
def ratioOf (caps goals : Value) : Option ℚ :=
  match caps with
  | Value.num (some c) =>
    if 0 < c then
      match goals with
      | Value.num g => g.map (fun q => q / c)
      | Value.str _ => none
    else some 0
  | _ => some 0

/-- Lines 144-149: when both `Caps` and `Goals` columns exist, append the
`Goal_Ratio` column. -/
def addGoalRatio (df : DF) : DF :=
  match df.headers.findIdx? (· == "Caps"), df.headers.findIdx? (· == "Goals") with
  | some i, some j =>
    ⟨df.headers ++ ["Goal_Ratio"],
     df.rows.map (fun r => r ++ [Value.num (ratioOf (rowGet r i) (rowGet r j))])⟩
  | _, _ => df

/-- Lines 122-151 (the Normalizer): `None` when no rows were extracted;
otherwise build the dataframe, filter empty players, coerce numerics and
append the derived columns.  `year` is `datetime.now().year`. -/
def normalizeTable (headers : List String) (data : List (List String)) (year : ℚ) :
    Except String (Option DF) :=
  if data.isEmpty then Except.ok none
  else
    match filterPlayer ⟨headers, data.map (fun r => r.map Value.str)⟩ with
    | Except.error e => Except.error e
    | Except.ok df1 =>
      Except.ok (some (addGoalRatio (addBirthAge year (coerceNumerics df1))))

/-- The body of the `try` block of `scrape_morocco_team_table` (lines
11-151).  The fetched document is an `Except`: network and HTTP-status
failures from lines 16-17 arrive as `Except.error`.  `Except.ok none` is
the explicit `return None` of lines 58-59 and 122-123. -/
def innerScrape (fetched : Except String (List Node)) (year : ℚ) :
    Except String (Option DF) :=
  match fetched with
  | Except.error e => Except.error e
  | Except.ok doc =>
    match locateTable doc with
    | none => Except.ok none
    | some t => normalizeTable (extractHeaders t) (extractRows (extractHeaders t) (bodyRows t)) year

/-- `scrape_morocco_team_table` with its boundary handler (lines 153-155):
every exception is caught, printed and collapsed to `None`. -/
def scrape (fetched : Except String (List Node)) (year : ℚ) : Option DF :=
  match innerScrape fetched year with
  | Except.ok r => r
  | Except.error _ => none

/-- The numeric reading of an entry; a string entry has no numeric value
(`Goals`/`Caps` are numeric wherever the statistics are taken). -/
def valNum : Value → Option ℚ
  | Value.num q => q
  | Value.str _ => none

/-- The numeric entries of column `j`, in row order. -/
def colNumVals (df : DF) (j : Nat) : List (Option ℚ) :=
  df.rows.map (fun r => valNum (rowGet r j))

/-- `Series.idxmax` over positional labels: NaN entries are skipped and the
first position attaining the maximum is returned; `none` when every entry
is NaN (the `isna().all()` guards of lines 195/204 skip exactly then). -/
def idxmax (vals : List (Option ℚ)) : Option Nat :=
  match (vals.filterMap id).max? with
  | none => none
  | some m => vals.findIdx? (fun o => decide (o = some m))

/-- Python `int(·)` on a float: truncation toward zero; `int` of NaN raises
`ValueError`. -/
def pyInt : Option ℚ → Except String ℤ
  | none => Except.error "cannot convert float NaN to integer"
  | some q => Except.ok (if q < 0 then -(Int.floor (-q)) else Int.floor q)

/-- One entry of `top_scorer` / `most_experienced`: the `Player` value at
the selected row, the `int` of the maximised column there, and the `int` of
the other column there (0 when that column is absent). -/
structure ScorerEntry where
  name : Value
  primary : ℤ
  secondary : ℤ
deriving DecidableEq, Repr

/-- Lines 197-201 / 206-210: build the dict for the selected row `k`;
`int()` of the maximised column first, then of the other column. -/
def mkScorer (df : DF) (p mainCol : Nat) (otherName : String) (k : Nat) :
    Except String ScorerEntry :=
  let row := df.rows.getD k []
  match pyInt (valNum (rowGet row mainCol)) with
  | Except.error e => Except.error e
  | Except.ok mi =>
    match (match df.headers.findIdx? (· == otherName) with
           | some oc => pyInt (valNum (rowGet row oc))
           | none => Except.ok 0) with
    | Except.error e => Except.error e
    | Except.ok oi => Except.ok ⟨rowGet row p, mi, oi⟩

/-- Lines 194-201: `top_scorer`, requiring both `Player` and `Goals`
columns and at least one non-NaN `Goals` entry. -/
def topScorerOf (df : DF) : Except String (Option ScorerEntry) :=
  match df.headers.findIdx? (· == "Player"), df.headers.findIdx? (· == "Goals") with
  | some p, some g =>
    match idxmax (colNumVals df g) with
    | none => Except.ok none
    | some k => (mkScorer df p g "Caps" k).map some
  | _, _ => Except.ok none

/-- Lines 203-210: `most_experienced`, the same with `Caps` maximised. -/
def mostExperiencedOf (df : DF) : Except String (Option ScorerEntry) :=
  match df.headers.findIdx? (· == "Player"), df.headers.findIdx? (· == "Caps") with
  | some p, some c =>
    match idxmax (colNumVals df c) with
    | none => Except.ok none
    | some k => (mkScorer df p c "Goals" k).map some
  | _, _ => Except.ok none

/-- `get_summary_stats`, lines 167-212, restricted to the row count and the
two argmax entries (the position frequencies, cap/goal sums and age mean
are independent aggregations not used by the properties below).  The
function has no handler of its own, so a `ValueError` from `int(NaN)`
propagates; `top_scorer` is computed before `most_experienced`. -/
structure SummaryStats where
  totalPlayers : Nat
  topScorer : Option ScorerEntry
  mostExperienced : Option ScorerEntry
deriving DecidableEq, Repr

def getSummaryStats (df : DF) : Except String SummaryStats :=
  match topScorerOf df with
  | Except.error e => Except.error e
  | Except.ok ts =>
    match mostExperiencedOf df with
    | Except.error e => Except.error e
    | Except.ok me => Except.ok ⟨df.rows.length, ts, me⟩

/-! Concrete documents and dataframes used by the properties below. -/

/-- The spec's scenario table: the squad header row and one data row for
Yassine Bounou.  The table text is the concatenated cell text; there is no
separate `tbody` element, so the data rows are all rows but the first. -/
def tabC1 : HTable :=
  ⟨"No. Pos. Player Date of birth (age) Caps Goals Club 1 GK Yassine Bounou[2] 5 April 1991 (age 34) 55 0 Sevilla",
   none,
   [⟨[], ["No.", "Pos.", "Player", "Date of birth (age)", "Caps", "Goals", "Club"]⟩,
    ⟨[], ["1", "GK", "Yassine Bounou[2]", "5 April 1991 (age 34)", "55", "0", "Sevilla"]⟩]⟩

def docC1 : List Node := [Node.table tabC1]

/-- A located table whose single data row has an empty `Player` cell. -/
def tabEmptyPlayer : HTable :=
  ⟨"No. Pos. Player Date of birth (age) Caps Goals Club 1 GK 1 May 1990 (age 35) 10 2 Club X",
   none,
   [⟨[], ["No.", "Pos.", "Player", "Date of birth (age)", "Caps", "Goals", "Club"]⟩,
    ⟨[], ["1", "GK", "", "1 May 1990 (age 35)", "10", "2", "Club X"]⟩]⟩

def docEmptyPlayer : List Node := [Node.table tabEmptyPlayer]

/-- A located table with a header row and no body rows. -/
def tabHeaderOnly : HTable :=
  ⟨"No. Pos. Player Date of birth (age) Caps Goals Club",
   none,
   [⟨[], ["No.", "Pos.", "Player", "Date of birth (age)", "Caps", "Goals", "Club"]⟩]⟩

def docHeaderOnly : List Node := [Node.table tabHeaderOnly]

/-- A document with a "Players" heading followed by a sibling table, and a
second, different table that matches the Stage B fallback. -/
def tabNearHeading : HTable :=
  ⟨"squad notes", none, [⟨[], ["a", "b", "c", "d"]⟩]⟩

def tabKeywordMatch : HTable :=
  ⟨"No. Pos. Player Caps Goals GK", none,
   [⟨[], ["No.", "Pos.", "Player", "Caps", "Goals"]⟩]⟩

def docTwoTables : List Node :=
  [Node.heading "Players", Node.table tabNearHeading, Node.table tabKeywordMatch]

/-- A located table whose header labels do not include `Player`. -/
def tabNoPlayer : HTable :=
  ⟨"No. Pos. Caps Goals 1 GK 10 2", none,
   [⟨[], ["No.", "Pos.", "Caps", "Goals"]⟩,
    ⟨[], ["1", "GK", "10", "2"]⟩]⟩

def docNoPlayer : List Node := [Node.table tabNoPlayer]

/-- A dataframe as produced after numeric coercion, used to exercise the
summary statistics: three players, a tie in `Goals` between the second and
third rows. -/
def dfStats : DF :=
  ⟨["Player", "Caps", "Goals"],
   [[Value.str "A", Value.num (some 10), Value.num (some 3)],
    [Value.str "B", Value.num (some 50), Value.num (some 7)],
    [Value.str "C", Value.num (some 20), Value.num (some 7)]]⟩

/-- Column `i` is the first `Player` column and every row holds a
non-empty string there. -/
def playerInv (i : Nat) (df : DF) : Prop :=
  df.headers.findIdx? (· == "Player") = some i ∧
  ∀ r ∈ df.rows, ∃ s, rowGet r i = Value.str s ∧ s ≠ ""

/-! Helper lemmas. -/

theorem padTrunc_length (n : Nat) (l : List String) : (padTrunc n l).length = n := by
  simp only [padTrunc, List.length_take, List.length_append, List.length_replicate]
  omega

theorem rowGet_eq_of_getElem? {r : List Value} {i : Nat} {v : Value}
    (h : r[i]? = some v) : rowGet r i = v := by
  simp [rowGet, h]

theorem lt_of_rowGet_ne {r : List Value} {i : Nat}
    (h : rowGet r i ≠ Value.str "") : i < r.length := by
  by_contra hge
  apply h
  simp [rowGet, List.getElem?_eq_none (by omega : r.length ≤ i)]

theorem rowGet_set_ne {r : List Value} {i j : Nat} {v : Value} (h : j ≠ i) :
    rowGet (r.set j v) i = rowGet r i := by
  simp [rowGet, List.getElem?_set_ne h]

theorem rowGet_append_left {r l : List Value} {i : Nat} (h : i < r.length) :
    rowGet (r ++ l) i = rowGet r i := by
  simp [rowGet, List.getElem?_append_left h]

theorem findIdx?_beq_getElem {hs : List String} {name : String} {i : Nat}
    (h : hs.findIdx? (· == name) = some i) :
    ∃ hlt : i < hs.length, hs[i] = name := by
  rw [List.findIdx?_eq_some_iff_getElem] at h
  obtain ⟨hlt, hp, -⟩ := h
  exact ⟨hlt, by simpa using hp⟩

/-- Claim C1: for the header row `No. / Pos. / Player / Date of birth (age)
/ Caps / Goals / Club` and the single data row `1 / GK / Yassine Bounou[2]
/ 5 April 1991 (age 34) / 55 / 0 / Sevilla`, the extraction-plus-
normalization pipeline produces exactly one output row with number 1,
position `GK`, name `Yassine Bounou` (footnote marker removed), birth year
1991, 55 caps, 0 goals, goal ratio 0 and club `Sevilla`; and the cell text
`Achraf Hakimi[1]` at the name position cleans to `Achraf Hakimi`. -/
theorem claim_C1 :
    scrape (Except.ok docC1) 2025 =
      some ⟨["Number", "Position", "Player", "Date_of_Birth", "Caps", "Goals", "Club",
             "Birth_Year", "Age", "Goal_Ratio"],
            [[Value.num (some 1), Value.str "GK", Value.str "Yassine Bounou",
              Value.str "5 April 1991", Value.num (some 55), Value.num (some 0),
              Value.str "Sevilla", Value.num (some 1991), Value.num (some 34),
              Value.num (some 0)]]⟩ ∧
    cleanCell 2 "Achraf Hakimi[1]" = "Achraf Hakimi" := by
  exact ⟨by decide, by decide⟩

/-- Claim C4: per output row, `Goal_Ratio` is 0 when `Caps` is NaN or 0,
equals `Goals / Caps` when `Caps` is positive (NaN `Goals` staying NaN),
is not clamped to `[0, 1]` (a ratio above 1 is attainable), and the
`Goal_Ratio` column appended when both `Caps` and `Goals` columns exist is
exactly this per-row ratio. -/
theorem claim_C4 :
    ∀ (g : Option ℚ) (c : ℚ) (df : DF) (i j : Nat),
    ratioOf (Value.num none) (Value.num g) = some 0 ∧
    ratioOf (Value.num (some 0)) (Value.num g) = some 0 ∧
    (0 < c → ratioOf (Value.num (some c)) (Value.num g) = g.map (fun q => q / c)) ∧
    (ratioOf (Value.num (some 2)) (Value.num (some 5)) = some (5 / 2) ∧ (1 : ℚ) < 5 / 2) ∧
    (df.headers.findIdx? (· == "Caps") = some i →
     df.headers.findIdx? (· == "Goals") = some j →
     (addGoalRatio df).rows =
       df.rows.map (fun r => r ++ [Value.num (ratioOf (rowGet r i) (rowGet r j))])) := by
  intro g c df i j
  refine ⟨rfl, by simp [ratioOf], fun hc => by simp [ratioOf, hc], ⟨by decide, by decide⟩, ?_⟩
  intro h1 h2
  simp [addGoalRatio, h1, h2]

/-- Witness for claim C4 at caps 55, goals 0 and the concrete statistics
dataframe. -/
theorem claim_C4_witness :
    ratioOf (Value.num (some 55)) (Value.num (some 0)) =
      (some (0 : ℚ)).map (fun q => q / 55) ∧
    (addGoalRatio dfStats).rows =
      dfStats.rows.map (fun r => r ++ [Value.num (ratioOf (rowGet r 1) (rowGet r 2))]) :=
  ⟨(claim_C4 (some 0) 55 dfStats 1 2).2.2.1 (by decide),
   (claim_C4 (some 0) 55 dfStats 1 2).2.2.2.2 (by decide) (by decide)⟩

/-- Claim C5: Stage A is preferred over Stage B — whenever Stage A locates
a table, the Locator returns it even when some table matches the Stage B
fallback; Stage A returns the first table following the first heading whose
text contains `player`. -/
theorem claim_C5 :
    (∀ (doc : List Node) (t t' : HTable),
      stageA doc = some t → stageB doc = some t' → locateTable doc = some t) ∧
    (∀ (pre : List Node) (h : String) (rest : List Node),
      (∀ n ∈ pre, isPlayersHeading n = false) →
      isPlayersHeading (Node.heading h) = true →
      stageA (pre ++ Node.heading h :: rest) = firstTableAfter rest) ∧
    (∀ (mid : List Node) (t : HTable) (post : List Node),
      (∀ n ∈ mid, ∀ u, n ≠ Node.table u) →
      firstTableAfter (mid ++ Node.table t :: post) = some t) := by
  refine ⟨?_, ?_, ?_⟩
  · intro doc t t' hA _
    simp [locateTable, hA]
  · intro pre h rest
    induction pre with
    | nil => intro _ hh; simp [stageA, hh]
    | cons n ns ih =>
      intro hpre hh
      have hn := hpre n (List.mem_cons_self n ns)
      simp only [List.cons_append, stageA, hn, Bool.false_eq_true, if_false]
      exact ih (fun m hm => hpre m (List.mem_cons_of_mem n hm)) hh
  · intro mid t post
    induction mid with
    | nil => intro _; rfl
    | cons n ns ih =>
      intro hmid
      have hrec := ih (fun m hm => hmid m (List.mem_cons_of_mem n hm))
      cases n with
      | heading s => simpa [firstTableAfter] using hrec
      | table u => exact absurd rfl (hmid (Node.table u) (List.mem_cons_self _ ns) u)
      | other => simpa [firstTableAfter] using hrec

/-- Witness for claim C5: in the two-table document both stages succeed and
the Locator picks the heading-adjacent table. -/
theorem claim_C5_witness : locateTable docTwoTables = some tabNearHeading :=
  claim_C5.1 docTwoTables tabNearHeading tabKeywordMatch (by decide) (by decide)

/-- Claim C6: the scrape operation never lets an exception past its
boundary — every failure of the inner fetch-locate-normalize computation is
collapsed to the `None` result, and a fetch (network / HTTP-status) failure
in particular propagates to the boundary and yields `None`. -/
theorem claim_C6 :
    ∀ (f : Except String (List Node)) (y : ℚ),
    (∀ e, innerScrape f y = Except.error e → scrape f y = none) ∧
    (∀ m, f = Except.error m → innerScrape f y = Except.error m ∧ scrape f y = none) := by
  intro f y
  constructor
  · intro e h
    simp [scrape, h]
  · rintro m rfl
    exact ⟨rfl, rfl⟩

/-- Witness for claim C6 at a concrete connection failure. -/
theorem claim_C6_witness :
    scrape (Except.error "Connection refused") 2025 = none :=
  ((claim_C6 (Except.error "Connection refused") 2025).2 "Connection refused" rfl).2

/-- Claim C7: the index-3 (birth-date) cell cleanup removes the
`(age ...)` parenthetical, strips the remaining parentheses and surrounding
whitespace (no parenthesis survives), `5 November 1996 (age 28)` cleans to
`5 November 1996` whose extracted birth year is 1996, and the `Age` column
equals the current year minus the birth year whenever the latter is
present. -/
theorem claim_C7 :
    ∀ (s : String) (y b : ℚ) (v : Value),
    cleanCell 3 s = cleanBirthDate s ∧
    cleanCell 3 "5 November 1996 (age 28)" = "5 November 1996" ∧
    birthYearOfCell "5 November 1996" = some 1996 ∧
    (birthYearOfValue v = some b → ageOfValue y v = some (y - b)) ∧
    (∀ c, c ∈ (cleanBirthDate s).toList → isParen c = false) := by
  intro s y b v
  refine ⟨rfl, by decide, by decide, fun h => by simp [ageOfValue, h], ?_⟩
  intro c hc
  have hmem : c ∈ (stripAgeAux s.toList.length s.toList).filter (fun c => !isParen c) := by
    have h0 : c ∈ pyStrip ((stripAgeAux s.toList.length s.toList).filter
        (fun c => !isParen c)) := hc
    unfold pyStrip at h0
    have h1 := List.mem_reverse.mp h0
    have h2 := (List.dropWhile_sublist _).subset h1
    have h3 := List.mem_reverse.mp h2
    exact (List.dropWhile_sublist _).subset h3
  have hp := (List.mem_filter.mp hmem).2
  simpa using hp

/-- Witness for claim C7: a present birth year 1991 gives age
`2025 - 1991`. -/
theorem claim_C7_witness :
    ageOfValue 2025 (Value.str "5 April 1991") = some (2025 - 1991) :=
  (claim_C7 "x" 2025 1991 (Value.str "5 April 1991")).2.2.2.1 (by decide)

/-- Claim C8: a body row is accepted iff it carries neither structural
marker class and has at least 4 cells; every accepted row is padded and
truncated to exactly the header count; row extraction is exactly this
per-row filter-map. -/
theorem claim_C8 :
    ∀ (headers : List String) (r : HRow),
    ((processRow headers r).isSome ↔ rowFlagged r = false ∧ 4 ≤ r.cells.length) ∧
    (∀ out, processRow headers r = some out → out.length = headers.length) ∧
    (∀ rows, extractRows headers rows = rows.filterMap (processRow headers)) := by
  intro headers r
  refine ⟨?_, ?_, fun _ => rfl⟩
  · by_cases hf : rowFlagged r <;> by_cases h4 : 4 ≤ r.cells.length <;>
      simp [processRow, hf, h4]
  · intro out hout
    by_cases hf : rowFlagged r <;> by_cases h4 : 4 ≤ r.cells.length <;>
      simp [processRow, hf, h4] at hout
    rw [← hout]
    exact padTrunc_length _ _

/-- Witness for claim C8: a five-cell unflagged row against a seven-column
header is accepted and padded to seven cells. -/
theorem claim_C8_witness :
    processRow ["H1", "H2", "H3", "H4", "H5", "H6", "H7"]
        ⟨[], ["1", "GK", "X[1]", "1 Jan 1990 (age 35)", "10"]⟩ =
      some ["1", "GK", "X", "1 Jan 1990", "10", "", ""] ∧
    (["1", "GK", "X", "1 Jan 1990", "10", "", ""] : List String).length = 7 :=
  ⟨by decide,
   (claim_C8 ["H1", "H2", "H3", "H4", "H5", "H6", "H7"]
      ⟨[], ["1", "GK", "X[1]", "1 Jan 1990 (age 35)", "10"]⟩).2.1
     ["1", "GK", "X", "1 Jan 1990", "10", "", ""] (by decide)⟩

/-- Claim C10: whenever the located table's extracted header labels do not
include `Player`, the scrape operation returns `None` — either no rows are
extracted, or the `Player` lookup raises `KeyError`, absorbed by the
boundary handler. -/
theorem claim_C10 :
    ∀ (doc : List Node) (y : ℚ) (t : HTable),
    locateTable doc = some t →
    "Player" ∉ extractHeaders t →
    scrape (Except.ok doc) y = none := by
  intro doc y t hloc hmem
  have hnone : (extractHeaders t).findIdx? (· == "Player") = none := by
    rw [List.findIdx?_eq_none_iff]
    intro x hx
    simp only [beq_eq_false_iff_ne, ne_eq]
    rintro rfl
    exact hmem hx
  by_cases hd : (extractRows (extractHeaders t) (bodyRows t)).isEmpty <;>
    simp [scrape, innerScrape, hloc, normalizeTable, filterPlayer, hnone, hd]

/-- Witness for claim C10 at a concrete table lacking a `Player` header. -/
theorem claim_C10_witness : scrape (Except.ok docNoPlayer) 2025 = none :=
  claim_C10 docNoPlayer 2025 tabNoPlayer (by decide) (by decide)

theorem rowGet_map_str (raw : List String) (i : Nat) :
    rowGet (raw.map Value.str) i = Value.str (raw.getD i "") := by
  simp only [rowGet, List.getD_eq_getElem?_getD, List.getElem?_map]
  cases raw[i]? <;> rfl

theorem coerceCol_rows_nil {df : DF} {name : String} (h : df.rows = []) :
    (coerceCol df name).rows = [] := by
  unfold coerceCol
  cases df.headers.findIdx? (· == name) <;> simp [h]

theorem coerceNumerics_rows_nil {df : DF} (h : df.rows = []) :
    (coerceNumerics df).rows = [] :=
  coerceCol_rows_nil (coerceCol_rows_nil (coerceCol_rows_nil h))

theorem addBirthAge_rows_nil {df : DF} {y : ℚ} (h : df.rows = []) :
    (addBirthAge y df).rows = [] := by
  unfold addBirthAge
  cases df.headers.findIdx? (· == "Date_of_Birth") <;> simp [h]

theorem addGoalRatio_rows_nil {df : DF} (h : df.rows = []) :
    (addGoalRatio df).rows = [] := by
  unfold addGoalRatio
  cases df.headers.findIdx? (· == "Caps") <;>
    cases df.headers.findIdx? (· == "Goals") <;> simp [h]

/-- Claim C2, amended: when zero rows survive the extraction filter (a
header-only table with no separate body section, or every body row flagged
or with fewer than 4 cells) the pipeline returns the `None` result; but
when rows are extracted and all of them are dropped by the empty-`Player`
filter, the pipeline returns an empty yet successful dataset instead of
`None`. -/
theorem claim_C2 :
    ∀ (doc : List Node) (y : ℚ) (t : HTable),
    locateTable doc = some t →
    (extractRows (extractHeaders t) (bodyRows t) = [] →
      scrape (Except.ok doc) y = none) ∧
    (∀ i, extractRows (extractHeaders t) (bodyRows t) ≠ [] →
      (extractHeaders t).findIdx? (· == "Player") = some i →
      (∀ r ∈ extractRows (extractHeaders t) (bodyRows t), r.getD i "" = "") →
      ∃ hs, scrape (Except.ok doc) y = some ⟨hs, []⟩) := by
  intro doc y t hloc
  constructor
  · intro hdata
    simp [scrape, innerScrape, hloc, normalizeTable, hdata]
  · intro i hne hplayer hallempty
    have hisEmpty : (extractRows (extractHeaders t) (bodyRows t)).isEmpty = false := by
      cases hx : extractRows (extractHeaders t) (bodyRows t) with
      | nil => exact absurd hx hne
      | cons a as => rfl
    have hfilter : List.filter (fun r => notnaNonempty (rowGet r i))
        ((extractRows (extractHeaders t) (bodyRows t)).map (fun r => r.map Value.str)) = [] := by
      rw [List.filter_eq_nil_iff]
      intro a ha
      obtain ⟨raw, hraw, rfl⟩ := List.mem_map.mp ha
      rw [rowGet_map_str, hallempty raw hraw]
      simp [notnaNonempty]
    have hscrape : scrape (Except.ok doc) y =
        some (addGoalRatio (addBirthAge y (coerceNumerics ⟨extractHeaders t, []⟩))) := by
      simp [scrape, innerScrape, hloc, normalizeTable, hisEmpty, filterPlayer, hplayer, hfilter]
    have hrows : (addGoalRatio (addBirthAge y (coerceNumerics
        (⟨extractHeaders t, []⟩ : DF)))).rows = [] :=
      addGoalRatio_rows_nil (addBirthAge_rows_nil (coerceNumerics_rows_nil rfl))
    have heta : ∀ (d : DF), d.rows = [] → d = ⟨d.headers, []⟩ := by
      intro d hd
      cases d
      simp_all
    refine ⟨(addGoalRatio (addBirthAge y (coerceNumerics ⟨extractHeaders t, []⟩))).headers, ?_⟩
    rw [hscrape]
    exact congrArg some (heta _ hrows)

/-- Counterexample to claim C2 as stated: a located table with one
extracted data row whose `Player` cell is empty yields an empty-but-
successful dataset, not the `None` result. -/
theorem claim_C2_counterexample :
    scrape (Except.ok docEmptyPlayer) 2025 =
      some ⟨["Number", "Position", "Player", "Date_of_Birth", "Caps", "Goals", "Club",
             "Birth_Year", "Age", "Goal_Ratio"], []⟩ := by
  decide

/-- Witness for the amended claim C2: the header-only table yields
`None`. -/
theorem claim_C2_witness : scrape (Except.ok docHeaderOnly) 2025 = none :=
  (claim_C2 docHeaderOnly 2025 tabHeaderOnly (by decide)).1 (by decide)

theorem playerInv_coerceCol {i : Nat} {df : DF} {name : String}
    (hname : name ≠ "Player") (h : playerInv i df) :
    playerInv i (coerceCol df name) := by
  obtain ⟨hidx, hrows⟩ := h
  cases hfind : df.headers.findIdx? (· == name) with
  | none =>
    refine ⟨?_, ?_⟩ <;> simp only [coerceCol, hfind]
    · exact hidx
    · exact hrows
  | some j =>
    have hij : j ≠ i := by
      obtain ⟨hlt1, he1⟩ := findIdx?_beq_getElem hidx
      obtain ⟨hlt2, he2⟩ := findIdx?_beq_getElem hfind
      intro heq
      subst heq
      exact hname (he2.symm.trans he1)
    refine ⟨?_, ?_⟩ <;> simp only [coerceCol, hfind]
    · exact hidx
    · intro r' hr'
      obtain ⟨r, hr, rfl⟩ := List.mem_map.mp hr'
      obtain ⟨s, hs, hsne⟩ := hrows r hr
      rw [rowGet_set_ne hij]
      exact ⟨s, hs, hsne⟩

theorem playerInv_addBirthAge {i : Nat} {df : DF} {y : ℚ} (h : playerInv i df) :
    playerInv i (addBirthAge y df) := by
  obtain ⟨hidx, hrows⟩ := h
  cases hfind : df.headers.findIdx? (· == "Date_of_Birth") with
  | none =>
    refine ⟨?_, ?_⟩ <;> simp only [addBirthAge, hfind]
    · exact hidx
    · exact hrows
  | some j =>
    refine ⟨?_, ?_⟩ <;> simp only [addBirthAge, hfind]
    · simp [List.findIdx?_append, hidx]
    · intro r' hr'
      obtain ⟨r, hr, rfl⟩ := List.mem_map.mp hr'
      obtain ⟨s, hs, hsne⟩ := hrows r hr
      have hlt : i < r.length := by
        apply lt_of_rowGet_ne
        rw [hs]
        simp [hsne]
      rw [rowGet_append_left hlt]
      exact ⟨s, hs, hsne⟩

theorem playerInv_addGoalRatio {i : Nat} {df : DF} (h : playerInv i df) :
    playerInv i (addGoalRatio df) := by
  obtain ⟨hidx, hrows⟩ := h
  cases h1 : df.headers.findIdx? (· == "Caps") with
  | none =>
    refine ⟨?_, ?_⟩ <;> simp only [addGoalRatio, h1]
    · exact hidx
    · exact hrows
  | some c =>
    cases h2 : df.headers.findIdx? (· == "Goals") with
    | none =>
      refine ⟨?_, ?_⟩ <;> simp only [addGoalRatio, h1, h2]
      · exact hidx
      · exact hrows
    | some g =>
      refine ⟨?_, ?_⟩ <;> simp only [addGoalRatio, h1, h2]
      · simp [List.findIdx?_append, hidx]
      · intro r' hr'
        obtain ⟨r, hr, rfl⟩ := List.mem_map.mp hr'
        obtain ⟨s, hs, hsne⟩ := hrows r hr
        have hlt : i < r.length := by
          apply lt_of_rowGet_ne
          rw [hs]
          simp [hsne]
        rw [rowGet_append_left hlt]
        exact ⟨s, hs, hsne⟩

theorem filterPlayer_playerInv {headers : List String} {data : List (List String)} {df' : DF}
    (h : filterPlayer ⟨headers, data.map (fun r => r.map Value.str)⟩ = Except.ok df') :
    ∃ i, playerInv i df' := by
  unfold filterPlayer at h
  cases hfind : headers.findIdx? (· == "Player") with
  | none =>
    rw [hfind] at h
    cases h
  | some i =>
    rw [hfind] at h
    obtain rfl : (⟨headers, _⟩ : DF) = df' := by
      injection h
    refine ⟨i, hfind, ?_⟩
    intro r hr
    rw [List.mem_filter] at hr
    obtain ⟨hmem, hpred⟩ := hr
    obtain ⟨raw, _hraw, rfl⟩ := List.mem_map.mp hmem
    rw [rowGet_map_str] at hpred ⊢
    refine ⟨raw.getD i "", rfl, ?_⟩
    simpa [notnaNonempty] using hpred

/-- Claim C3: for every well-formed header/row pair given to the
Normalizer that yields a dataset, every row of the dataset holds a
non-empty string in the `Player` column — rows whose `Player` field is
empty after cleanup are always dropped. -/
theorem claim_C3 :
    ∀ (headers : List String) (data : List (List String)) (y : ℚ) (df : DF),
    (∀ r ∈ data, r.length = headers.length) →
    normalizeTable headers data y = Except.ok (some df) →
    ∃ i, df.headers.findIdx? (· == "Player") = some i ∧
      ∀ r ∈ df.rows, ∃ s, rowGet r i = Value.str s ∧ s ≠ "" := by
  intro headers data y df _hlen hnorm
  unfold normalizeTable at hnorm
  by_cases hd : data.isEmpty
  · rw [if_pos hd] at hnorm
    injection hnorm with h'
    cases h'
  · rw [if_neg hd] at hnorm
    cases hfp : filterPlayer ⟨headers, data.map (fun r => r.map Value.str)⟩ with
    | error e =>
      rw [hfp] at hnorm
      cases hnorm
    | ok df1 =>
      rw [hfp] at hnorm
      have hdf : df = addGoalRatio (addBirthAge y (coerceNumerics df1)) := by
        injection hnorm with h'
        injection h' with h''
        exact h''.symm
      obtain ⟨i, hinv⟩ := filterPlayer_playerInv hfp
      have hnum : coerceNumerics df1 =
          coerceCol (coerceCol (coerceCol df1 "Number") "Caps") "Goals" := rfl
      have hinv2 : playerInv i (addGoalRatio (addBirthAge y (coerceNumerics df1))) := by
        rw [hnum]
        exact playerInv_addGoalRatio (playerInv_addBirthAge (playerInv_coerceCol (by decide)
          (playerInv_coerceCol (by decide) (playerInv_coerceCol (by decide) hinv))))
      rw [hdf]
      exact ⟨i, hinv2.1, hinv2.2⟩

/-- Witness for claim C3: a two-row input whose second row has an empty
`Player` cell normalizes to a dataset whose single row has `Bob` there. -/
theorem claim_C3_witness :
    ∃ i, (⟨["A", "B", "Player", "D"],
           [[Value.str "1", Value.str "2", Value.str "Bob", Value.str "4"]]⟩ : DF).headers.findIdx?
            (· == "Player") = some i ∧
      ∀ r ∈ (⟨["A", "B", "Player", "D"],
              [[Value.str "1", Value.str "2", Value.str "Bob", Value.str "4"]]⟩ : DF).rows,
        ∃ s, rowGet r i = Value.str s ∧ s ≠ "" :=
  claim_C3 ["A", "B", "Player", "D"] [["1", "2", "Bob", "4"], ["5", "6", "", "8"]] 2025
    ⟨["A", "B", "Player", "D"], [[Value.str "1", Value.str "2", Value.str "Bob", Value.str "4"]]⟩
    (by decide) rfl

theorem idxmax_spec {vals : List (Option ℚ)} {k : Nat} {q : ℚ}
    (hk : vals[k]? = some (some q))
    (hub : ∀ o ∈ vals, ∀ q', o = some q' → q' ≤ q)
    (hfirst : ∀ j, j < k → vals[j]? ≠ some (some q)) :
    idxmax vals = some k := by
  have hmem : (some q) ∈ vals := List.getElem?_mem hk
  have hmax : (vals.filterMap id).max? = some q := by
    haveI : Std.Antisymm ((· : ℚ) ≤ ·) := ⟨fun h1 h2 => le_antisymm h1 h2⟩
    apply (List.max?_eq_some_iff le_refl max_choice (fun _ _ _ => max_le_iff)).mpr
    constructor
    · exact List.mem_filterMap.mpr ⟨some q, hmem, rfl⟩
    · intro b hb
      obtain ⟨o, ho, hob⟩ := List.mem_filterMap.mp hb
      exact hub o ho b hob
  unfold idxmax
  rw [hmax]
  rw [List.findIdx?_eq_some_iff_getElem]
  obtain ⟨hklt, hkval⟩ := List.getElem?_eq_some_iff.mp hk
  refine ⟨hklt, by simp [hkval], ?_⟩
  intro j hj
  simp only [decide_eq_true_eq]
  intro heq
  exact hfirst j hj (List.getElem?_eq_some_iff.mpr ⟨Nat.lt_trans hj hklt, heq⟩)

/-- Claim C9: for a dataset with `Player` and `Goals` columns where some
`Goals` value is present, the summary's top scorer is built from the row
holding the maximum `Goals` value, ties broken by first occurrence in
document order; the same holds for the most-experienced entry with respect
to `Caps`. -/
theorem claim_C9 :
    (∀ (df : DF) (p g k : Nat) (q : ℚ),
      df.headers.findIdx? (· == "Player") = some p →
      df.headers.findIdx? (· == "Goals") = some g →
      (colNumVals df g)[k]? = some (some q) →
      (∀ o ∈ colNumVals df g, ∀ q', o = some q' → q' ≤ q) →
      (∀ j, j < k → (colNumVals df g)[j]? ≠ some (some q)) →
      idxmax (colNumVals df g) = some k ∧
        topScorerOf df = (mkScorer df p g "Caps" k).map some) ∧
    (∀ (df : DF) (p c k : Nat) (q : ℚ),
      df.headers.findIdx? (· == "Player") = some p →
      df.headers.findIdx? (· == "Caps") = some c →
      (colNumVals df c)[k]? = some (some q) →
      (∀ o ∈ colNumVals df c, ∀ q', o = some q' → q' ≤ q) →
      (∀ j, j < k → (colNumVals df c)[j]? ≠ some (some q)) →
      idxmax (colNumVals df c) = some k ∧
        mostExperiencedOf df = (mkScorer df p c "Goals" k).map some) := by
  constructor
  · intro df p g k q hp hg hk hub hfirst
    have him := idxmax_spec hk hub hfirst
    exact ⟨him, by simp [topScorerOf, hp, hg, him]⟩
  · intro df p c k q hp hc hk hub hfirst
    have him := idxmax_spec hk hub hfirst
    exact ⟨him, by simp [mostExperiencedOf, hp, hc, him]⟩

/-- Witness for claim C9 on the concrete statistics dataframe: the
`Goals` tie at 7 selects the earlier row (index 1) and the maximal `Caps`
value 50 also selects index 1. -/
theorem claim_C9_witness :
    (idxmax (colNumVals dfStats 2) = some 1 ∧
      topScorerOf dfStats = (mkScorer dfStats 0 2 "Caps" 1).map some) ∧
    (idxmax (colNumVals dfStats 1) = some 1 ∧
      mostExperiencedOf dfStats = (mkScorer dfStats 0 1 "Goals" 1).map some) :=
  ⟨claim_C9.1 dfStats 0 2 1 7 (by decide) (by decide) (by decide)
     (by decide)
     (by
       intro j hj
       have hj0 : j = 0 := by omega
       subst hj0
       decide),
   claim_C9.2 dfStats 0 1 1 50 (by decide) (by decide) (by decide)
     (by decide)
     (by
       intro j hj
       have hj0 : j = 0 := by omega
       subst hj0
       decide)⟩
